import Mathlib

/-!
Verification of the loader-selection and dispatch policy of `importx`
(`src/index.ts`) against its natural-language specification.

The source is shallowly embedded: the memoized capability probe and the
host's version numbers are passed as explicit parameters (they are
process-wide ambient state in the source); the dynamic `import()` inside the
probe is abstracted as an oracle of type `Except String String` (the thrown
error, or the imported module's `default` field); `importTs` is modelled up
to the point where it either throws a validation error or invokes an
external engine, which is where every claim about it lives.
-/

namespace Importx

/-- The four loader strategies of `SupportedLoader` in `src/index.ts`. -/
inductive SupportedLoader where
  | tsx
  | jiti
  | bundleRequire
  | native

/-- The string tag each strategy carries in the source (`'bundle-require'`
etc.), used by the string-keyed `switch` in `importTs`. -/
def SupportedLoader.toName : SupportedLoader → String
  | .tsx => "tsx"
  | .jiti => "jiti"
  | .bundleRequire => "bundle-require"
  | .native => "native"

/-- Embedding of `tsxOrJiti` (src/index.ts lines 126-144). The ambient
`nodeVersionNumbers` (major, minor, patch of `process.versions.node`, or
`none` when the host exposes no version) is an explicit argument. -/
def tsxOrJiti (nodeVersionNumbers : Option (Nat × Nat × Nat)) : SupportedLoader :=
  match nodeVersionNumbers with
  | none => .tsx
  | some (major, minor, _) =>
    if major < 18 ∨ (major = 18 ∧ minor < 19) ∨ (major = 20 ∧ minor < 8) then
      .jiti
    else
      .tsx

/-- Embedding of `detectLoader` (src/index.ts lines 113-124). `cache` is the
source's `boolean | null` (`none` models `null`); `nativeSupported` is the
memoized result `isNativeTsImportSupported()` would resolve to. -/
def detectLoader (nativeSupported : Bool) (nv : Option (Nat × Nat × Nat))
    (cache : Option Bool) (isTsFile : Bool) : SupportedLoader :=
  if cache = some false then
    tsxOrJiti nv
  else if !isTsFile || nativeSupported then
    .native
  else if cache = some true then
    .jiti
  else
    tsxOrJiti nv

/-- Suffix test on the underlying character lists (kernel-reducible form of
`String.endsWith`). -/
def strEndsWith (s suffix : String) : Bool :=
  suffix.data.isSuffixOf s.data

/-- Embedding of `isTypeScriptFile` (src/index.ts lines 146-150): the regex
`\.[mc]?tsx?$` holds exactly of paths ending in one of these six suffixes. -/
def isTypeScriptFile (path : String) : Bool :=
  strEndsWith path ".ts" || strEndsWith path ".tsx"
    || strEndsWith path ".mts" || strEndsWith path ".mtsx"
    || strEndsWith path ".cts" || strEndsWith path ".ctsx"

/-- The body of the probe's `try` block (src/index.ts lines 96-103): on a
successful import the result is whether `mod.default === 'dummy'`; the
`catch` folds any thrown error into `false`. -/
def probeValue (imp : Except String String) : Bool :=
  match imp with
  | .ok d => d == "dummy"
  | .error _ => false

/-- The probe's process-wide state: the memoized slot
`_isNativeTsImportSupported` (src/index.ts line 89) together with a counter
of how many times the underlying dynamic import has been triggered. -/
structure ProbeState where
  cache : Option Bool
  attempts : Nat

/-- Embedding of one (non-interleaved) call to `isNativeTsImportSupported`
(src/index.ts lines 94-106): if the slot is set, return it; otherwise
trigger the import once, memoize and return `probeValue imp`. -/
def isNativeTsImportSupported (imp : Except String String) (s : ProbeState) :
    Bool × ProbeState :=
  match s.cache with
  | some b => (b, s)
  | none =>
    let r := probeValue imp
    (r, ⟨some r, s.attempts + 1⟩)

/-- `n` sequential (each-to-completion) calls to the probe. -/
def runSeq (imp : Except String String) : Nat → ProbeState → ProbeState
  | 0, s => s
  | n + 1, s => runSeq imp n (isNativeTsImportSupported imp s).2

/-- Where a single probe call stands: not yet started, suspended at
`await import(...)` (the import already triggered), or finished. -/
inductive TaskPhase where
  | start
  | awaiting
  | done (r : Bool)

/-- One cooperative step of a probe call. From `start`: if the slot is set
return it, else trigger the import (counting one attempt) and suspend. From
`awaiting`: the import resolved; write the slot and finish, as the source
does on resuming from the `await`. -/
def stepTask (imp : Except String String) (g : ProbeState) :
    TaskPhase → ProbeState × TaskPhase
  | .start =>
    match g.cache with
    | some b => (g, .done b)
    | none => (⟨g.cache, g.attempts + 1⟩, .awaiting)
  | .awaiting =>
    let r := probeValue imp
    (⟨some r, g.attempts⟩, .done r)
  | .done r => (g, .done r)

/-- Run two probe calls under a schedule: `true` steps the first task,
`false` the second. Models the source's single-threaded cooperative
concurrency, where tasks interleave only at suspension points. -/
def run2 (imp : Except String String) :
    List Bool → ProbeState × TaskPhase × TaskPhase → ProbeState × TaskPhase × TaskPhase
  | [], s => s
  | pick :: rest, (g, t1, t2) =>
    if pick then
      let p := stepTask imp g t1
      run2 imp rest (p.1, p.2, t2)
    else
      let p := stepTask imp g t2
      run2 imp rest (p.1, t1, p.2)

/-- The options object of `importTs` as it matters to the embedded claims.
`Option` on a field models the field being absent (`undefined`); `cache`'s
inner `Option Bool` models `boolean | null`. -/
structure ImportTsOptions where
  loader : Option String
  cache : Option (Option Bool)
  ignoreImportxWarning : Option Bool
  parentURL : String

/-- The shorthand-call normalization (src/index.ts lines 167-168): a string
or URL second argument becomes `{ parentURL: value }` with every other
field absent. -/
def normalizeShorthand (parentURL : String) : ImportTsOptions :=
  { loader := none, cache := none, ignoreImportxWarning := none, parentURL := parentURL }

/-- The destructuring default `cache = true` (src/index.ts line 173): only
an absent field takes the default; an explicit `null` stays `null`. -/
def resolveCache : Option (Option Bool) → Option Bool
  | none => some true
  | some v => v

/-- The destructuring default `ignoreImportxWarning = false`
(src/index.ts line 174). -/
def resolveIgnore : Option Bool → Bool
  | none => false
  | some b => b

/-- `options.loader || 'auto'` (src/index.ts line 178): an absent loader and
any falsy loader string (the empty string) both become `'auto'`. -/
def resolveLoader : Option String → String
  | none => "auto"
  | some s => if s = "" then "auto" else s

/-- The observable outcome of `importTs` up to engine invocation: either a
synchronously thrown validation error with its message, or the invocation
of the engine named by the resolved loader. -/
inductive ImportOutcome where
  | error (msg : String)
  | engine (loaderName : String)

/-- The string-keyed `switch (loader)` of `importTs` (src/index.ts lines
184-240) with its per-case cache-compatibility checks and the `default`
throw. The error message strings are the source's, verbatim — including the
`bundle-require` case's message, which names the `native` loader. -/
def dispatchResolved (cache : Option Bool) (ignoreImportxWarning : Bool)
    (loader : String) : ImportOutcome :=
  if loader = "native" then
    if cache = some false ∧ ignoreImportxWarning = false then
      .error "`cache: false` is not compatible with `native` loader"
    else
      .engine "native"
  else if loader = "tsx" then
    if cache = some true ∧ ignoreImportxWarning = false then
      .error "`cache: true` is not compatible with `tsx` loader"
    else
      .engine "tsx"
  else if loader = "jiti" then
    .engine "jiti"
  else if loader = "bundle-require" then
    if cache = some true ∧ ignoreImportxWarning = false then
      .error "`cache: true` is not compatible with `native` loader"
    else
      .engine "bundle-require"
  else
    .error ("Unknown loader: " ++ loader)

/-- Embedding of `importTs` (src/index.ts lines 166-241) up to engine
invocation: resolve the defaults, resolve `'auto'` via `detectLoader`, then
run the `switch`. -/
def importTs (nativeSupported : Bool) (nv : Option (Nat × Nat × Nat))
    (path : String) (options : ImportTsOptions) : ImportOutcome :=
  let cache := resolveCache options.cache
  let ignoreImportxWarning := resolveIgnore options.ignoreImportxWarning
  let loader0 := resolveLoader options.loader
  let loader :=
    if loader0 = "auto" then
      (detectLoader nativeSupported nv cache (isTypeScriptFile path)).toName
    else loader0
  dispatchResolved cache ignoreImportxWarning loader

/-- Modelled from the spec: §4.2's `engineEligibleForVersion(versionTriple)`,
the Runtime Version Gate's threshold table, stated in the spec's words. The
repository keeps no separate gate function (it is inlined in `tsxOrJiti`),
so this is the specification side of the refinement. -/
def engineEligibleForVersion : Nat × Nat × Nat → Bool
  | (major, minor, _) =>
    if major < 18 ∨ (major = 18 ∧ minor < 19) ∨ (major = 20 ∧ minor < 8) then
      false
    else
      true

/-- Modelled from the spec: §4.4 step 4, the version-gate branch — no
recognizable version identifier or an eligible host selects `hook-transpile`
(tsx); an ineligible host selects `bundled-runner` (jiti). -/
def versionGateBranch (nv : Option (Nat × Nat × Nat)) : SupportedLoader :=
  match nv with
  | none => .tsx
  | some v => if engineEligibleForVersion v then .tsx else .jiti

/-- Modelled from the spec: §4.4's ordered decision procedure for
`selectStrategy(cache, isTransformableFile)`, the specification side of the
refinement proved about `detectLoader`. -/
def selectStrategySpec (nativeSupported : Bool) (nv : Option (Nat × Nat × Nat))
    (cache : Option Bool) (isTransformableFile : Bool) : SupportedLoader :=
  if cache = some false then
    versionGateBranch nv
  else if isTransformableFile = false ∨ nativeSupported = true then
    .native
  else if cache = some true then
    .jiti
  else
    versionGateBranch nv

/-- Modelled from the spec: §3/§4.5's ModuleInfo record. The repository's
`src/` keeps no such record; the fields are the spec's. -/
structure ModuleInfo where
  strategyUsed : String
  timestampInit : Nat
  timestampLoad : Nat
  dependencies : Option (List String)

/-- Modelled from the spec: §4.5 step 5 — dispatch records the ModuleInfo in
the process-wide side-table keyed by the returned module value (module
values are opaque identities, modelled as `Nat` keys). -/
def recordModuleInfo (table : List (Nat × ModuleInfo)) (key : Nat)
    (info : ModuleInfo) : List (Nat × ModuleInfo) :=
  (key, info) :: table

/-- Modelled from the spec: §6's companion accessor
`getModuleInfo(moduleValue) -> ModuleInfo | undefined`, a pure lookup into
the side-table. -/
def getModuleInfo (table : List (Nat × ModuleInfo)) (key : Nat) : Option ModuleInfo :=
  (table.find? (fun p => p.1 == key)).map Prod.snd

/-! ## Helper lemmas -/

theorem tsxOrJiti_eq_versionGateBranch (nv : Option (Nat × Nat × Nat)) :
    tsxOrJiti nv = versionGateBranch nv := by
  cases nv with
  | none => rfl
  | some v =>
    obtain ⟨major, minor, patch⟩ := v
    by_cases h : major < 18 ∨ (major = 18 ∧ minor < 19) ∨ (major = 20 ∧ minor < 8) <;>
      simp [tsxOrJiti, versionGateBranch, engineEligibleForVersion, h]

theorem tsxOrJiti_cases (nv : Option (Nat × Nat × Nat)) :
    tsxOrJiti nv = SupportedLoader.tsx ∨ tsxOrJiti nv = SupportedLoader.jiti := by
  cases nv with
  | none => exact Or.inl rfl
  | some v =>
    obtain ⟨major, minor, patch⟩ := v
    by_cases h : major < 18 ∨ (major = 18 ∧ minor < 19) ∨ (major = 20 ∧ minor < 8)
    · exact Or.inr (by simp [tsxOrJiti, h])
    · exact Or.inl (by simp [tsxOrJiti, h])

theorem runSeq_cached (imp : Except String String) (n : Nat) (b : Bool) (a : Nat) :
    runSeq imp n ⟨some b, a⟩ = ⟨some b, a⟩ := by
  induction n with
  | zero => rfl
  | succ n ih => simpa [runSeq, isNativeTsImportSupported] using ih

theorem dispatchResolved_auto (c : Option Bool) (ig : Bool) (probe : Bool)
    (nv : Option (Nat × Nat × Nat)) (b : Bool) :
    dispatchResolved c ig ((detectLoader probe nv c b).toName)
      = ImportOutcome.engine ((detectLoader probe nv c b).toName) := by
  rcases tsxOrJiti_cases nv with h | h <;>
    rcases c with _ | (_ | _) <;> cases b <;> cases probe <;>
    simp [detectLoader, dispatchResolved, SupportedLoader.toName, h]

/-! ## Claim theorems -/

/-- Claim C1: for every cache requirement and is-transformable-file flag
(and every probe result and host version), `detectLoader` returns exactly
the strategy of the spec's ordered procedure (`selectStrategySpec`), and in
particular never returns `bundle-require`. -/
theorem detectLoader_matches_spec :
    ∀ (probe : Bool) (nv : Option (Nat × Nat × Nat)) (cache : Option Bool) (isTs : Bool),
      detectLoader probe nv cache isTs = selectStrategySpec probe nv cache isTs
      ∧ (detectLoader probe nv cache isTs = SupportedLoader.native
         ∨ detectLoader probe nv cache isTs = SupportedLoader.tsx
         ∨ detectLoader probe nv cache isTs = SupportedLoader.jiti) := by
  intro probe nv cache isTs
  constructor
  · rcases cache with _ | (_ | _) <;> cases isTs <;> cases probe <;>
      simp [detectLoader, selectStrategySpec, tsxOrJiti_eq_versionGateBranch]
  · rcases tsxOrJiti_cases nv with h | h <;>
      rcases cache with _ | (_ | _) <;> cases isTs <;> cases probe <;>
      simp [detectLoader, h]

/-- Claim C2: with cache `must-not-cache` (`some false`) `detectLoader`
never returns `native` (it returns `tsx` or `jiti`), for every
is-transformable flag, probe result and host version; and for every other
cache value (`none` or `some true`), a non-transformable file always yields
`native`, regardless of the probe result. -/
theorem detectLoader_cache_rules :
    ∀ (probe : Bool) (nv : Option (Nat × Nat × Nat)),
      (∀ isTs : Bool,
        detectLoader probe nv (some false) isTs = SupportedLoader.tsx
        ∨ detectLoader probe nv (some false) isTs = SupportedLoader.jiti)
      ∧ detectLoader probe nv none false = SupportedLoader.native
      ∧ detectLoader probe nv (some true) false = SupportedLoader.native := by
  intro probe nv
  refine ⟨fun isTs => ?_, ?_, ?_⟩
  · simpa [detectLoader] using tsxOrJiti_cases nv
  · simp [detectLoader]
  · simp [detectLoader]

/-- Claim C5: `tsxOrJiti` is the Runtime Version Gate of the spec — it
selects `tsx` exactly when `engineEligibleForVersion` (the spec's threshold
table: major < 18 ineligible, 18.x with minor < 19 ineligible, 20.x with
minor < 8 ineligible, everything else eligible) holds, a missing version
identifier defaults to `tsx` (eligible), and major 19 is always eligible. -/
theorem tsxOrJiti_version_gate :
    (∀ v : Nat × Nat × Nat,
        tsxOrJiti (some v)
          = if engineEligibleForVersion v then SupportedLoader.tsx else SupportedLoader.jiti)
    ∧ tsxOrJiti none = SupportedLoader.tsx
    ∧ (∀ minor patch : Nat, engineEligibleForVersion (19, minor, patch) = true)
    ∧ (∀ minor patch : Nat, tsxOrJiti (some (19, minor, patch)) = SupportedLoader.tsx) := by
  refine ⟨fun v => ?_, rfl, fun minor patch => ?_, fun minor patch => ?_⟩
  · simpa [versionGateBranch] using tsxOrJiti_eq_versionGateBranch (some v)
  · have h : ¬((19 : Nat) < 18 ∨ ((19 : Nat) = 18 ∧ minor < 19)
        ∨ ((19 : Nat) = 20 ∧ minor < 8)) := by omega
    simp [engineEligibleForVersion, h]
  · have h : ¬((19 : Nat) < 18 ∨ ((19 : Nat) = 18 ∧ minor < 19)
        ∨ ((19 : Nat) = 20 ∧ minor < 8)) := by omega
    simp [tsxOrJiti, h]

/-- Claim C7: the probe never propagates an error — a failed import yields
`false` — and it yields `true` exactly when the import succeeds with the
module's `default` field equal to the sentinel `'dummy'`. -/
theorem isNativeTsImportSupported_no_throw :
    ∀ imp : Except String String,
      ((isNativeTsImportSupported imp ⟨none, 0⟩).1 = true ↔ imp = Except.ok "dummy")
      ∧ (∀ e : String, (isNativeTsImportSupported (Except.error e) ⟨none, 0⟩).1 = false) := by
  intro imp
  refine ⟨?_, fun e => rfl⟩
  cases imp with
  | ok d => simp [isNativeTsImportSupported, probeValue]
  | error e => simp [isNativeTsImportSupported, probeValue]

/-- Claim C6 (amended): for sequential (run-to-completion) calls the probe
is memoized — a second call returns the first call's value and leaves the
state unchanged, and any number of sequential calls from the fresh state
trigger the underlying import at most once. -/
theorem probe_memoized_sequential :
    ∀ (imp : Except String String) (s : ProbeState) (n : Nat),
      (isNativeTsImportSupported imp (isNativeTsImportSupported imp s).2).1
        = (isNativeTsImportSupported imp s).1
      ∧ (runSeq imp n ⟨none, 0⟩).attempts ≤ 1 := by
  intro imp s n
  constructor
  · rcases s with ⟨c, a⟩
    rcases c with _ | b <;> simp [isNativeTsImportSupported]
  · cases n with
    | zero => simp [runSeq]
    | succ n =>
      have h : (isNativeTsImportSupported imp ⟨none, 0⟩).2
          = (⟨some (probeValue imp), 1⟩ : ProbeState) := rfl
      simp [runSeq, h, runSeq_cached]

/-- Claim C6 counterexample: two concurrent first calls, interleaved at the
`await import(...)` suspension point (schedule: task 1 starts, task 2
starts, task 1 resumes, task 2 resumes), trigger the underlying import
twice — refuting "at most once across any number of calls including
concurrent first calls". Both calls still converge to the same value. -/
theorem probe_concurrent_double_attempt :
    run2 (Except.ok "dummy") [true, false, true, false]
      (⟨none, 0⟩, TaskPhase.start, TaskPhase.start)
      = (⟨some true, 2⟩, TaskPhase.done true, TaskPhase.done true) := rfl

/-- Claim C3 (code bug): with loader `bundle-require`, cache `true` and
validation not bypassed, `importTs` throws before invoking any engine, but
the error message names the `native` loader, not the resolved strategy
`bundle-require` (src/index.ts line 227). -/
theorem bundleRequire_error_names_native :
    importTs false none "mod.ts"
      { loader := some "bundle-require", cache := some (some true),
        ignoreImportxWarning := some false, parentURL := "file:///a.mjs" }
      = ImportOutcome.error "`cache: true` is not compatible with `native` loader" := rfl

/-- Claim C8 (amended): for every non-empty requested loader name outside
the four-name enumeration and distinct from `auto`, `importTs` fails with
the `Unknown loader` error for every cache value and every
`ignoreImportxWarning` value (the bypass flag never suppresses it), and no
engine is invoked. The empty string is excluded: `options.loader || 'auto'`
coerces it to `auto`. -/
theorem unknown_loader_always_fatal (loader : String)
    (h1 : loader ≠ "") (h2 : loader ≠ "auto") (h3 : loader ≠ "native")
    (h4 : loader ≠ "tsx") (h5 : loader ≠ "jiti") (h6 : loader ≠ "bundle-require") :
    ∀ (probe : Bool) (nv : Option (Nat × Nat × Nat)) (path parentURL : String)
      (cacheOpt : Option (Option Bool)) (ignoreOpt : Option Bool),
      importTs probe nv path
        { loader := some loader, cache := cacheOpt,
          ignoreImportxWarning := ignoreOpt, parentURL := parentURL }
        = ImportOutcome.error ("Unknown loader: " ++ loader) := by
  intro probe nv path parentURL cacheOpt ignoreOpt
  simp [importTs, resolveLoader, dispatchResolved, h1, h2, h3, h4, h5, h6]

/-- Claim C8 witness: the concrete unknown name `foo` is rejected. -/
theorem unknown_loader_always_fatal_witness :
    importTs false none "mod.ts"
      { loader := some "foo", cache := none, ignoreImportxWarning := none,
        parentURL := "file:///a.mjs" }
      = ImportOutcome.error ("Unknown loader: " ++ "foo") :=
  unknown_loader_always_fatal "foo" (by decide) (by decide) (by decide) (by decide)
    (by decide) (by decide) false none "mod.ts" "file:///a.mjs" none none

/-- Claim C8 counterexample: the empty string is outside the four-name
enumeration and is not `auto`, yet `importTs` does not fail with the
`Unknown loader` error — `options.loader || 'auto'` treats the falsy empty
string as `auto`, and here the auto-selected `native` engine is invoked. -/
theorem empty_loader_not_unknown :
    ("" == "auto") = false ∧ ("" == "native") = false ∧ ("" == "tsx") = false
    ∧ ("" == "jiti") = false ∧ ("" == "bundle-require") = false
    ∧ importTs true none "a.ts"
        { loader := some "", cache := none, ignoreImportxWarning := none,
          parentURL := "file:///a.mjs" }
      = ImportOutcome.engine "native" :=
  ⟨rfl, rfl, rfl, rfl, rfl, rfl⟩

/-- Claim C9: the shorthand call form (second argument only a parent
reference) resolves cache to `true` (must-cache) and loader to `auto` —
behaving exactly as the full form with those explicit values — and the same
defaults apply when the full options form omits the fields. -/
theorem shorthand_defaults :
    ∀ (probe : Bool) (nv : Option (Nat × Nat × Nat)) (path parentURL : String),
      resolveCache (normalizeShorthand parentURL).cache = some true
      ∧ resolveLoader (normalizeShorthand parentURL).loader = "auto"
      ∧ importTs probe nv path (normalizeShorthand parentURL)
          = importTs probe nv path
              { loader := some "auto", cache := some (some true),
                ignoreImportxWarning := some false, parentURL := parentURL } := by
  intro probe nv path parentURL
  exact ⟨rfl, rfl, rfl⟩

/-- Claim C10: with loader `auto`, `importTs` always reaches the engine
selected by `detectLoader` — for every cache value, bypass flag, probe
result, host version and path, no validation error (in particular no
cache-incompatibility error) is ever raised. -/
theorem auto_never_incompatible :
    ∀ (probe : Bool) (nv : Option (Nat × Nat × Nat)) (path parentURL : String)
      (cacheOpt : Option (Option Bool)) (ignoreOpt : Option Bool),
      importTs probe nv path
        { loader := some "auto", cache := cacheOpt,
          ignoreImportxWarning := ignoreOpt, parentURL := parentURL }
        = ImportOutcome.engine
            ((detectLoader probe nv (resolveCache cacheOpt) (isTypeScriptFile path)).toName) := by
  intro probe nv path parentURL cacheOpt ignoreOpt
  exact dispatchResolved_auto (resolveCache cacheOpt) (resolveIgnore ignoreOpt) probe nv
    (isTypeScriptFile path)

/-- Claim C4: recording a ModuleInfo under the returned value's key makes
`getModuleInfo` return exactly that record, and `getModuleInfo` returns
`none` precisely for values the dispatch never recorded. -/
theorem getModuleInfo_lookup :
    ∀ (table : List (Nat × ModuleInfo)) (key : Nat) (info : ModuleInfo),
      getModuleInfo (recordModuleInfo table key info) key = some info
      ∧ (getModuleInfo table key = none ↔ ∀ i : ModuleInfo, (key, i) ∉ table) := by
  intro table key info
  constructor
  · simp [getModuleInfo, recordModuleInfo, List.find?]
  · simp only [getModuleInfo, Option.map_eq_none', List.find?_eq_none]
    constructor
    · intro h i hmem
      simpa using h (key, i) hmem
    · intro h x hmem
      obtain ⟨k, v⟩ := x
      simp only [beq_iff_eq]
      intro hk
      subst hk
      exact h v hmem

end Importx
